import Mathlib

/-!
Shallow embedding of the real-time conversation layer of the supportflow
backend (Express + Socket.IO server, `src/unnamed/part_004`): the
conversation data model, the `send_message` / typing / leave / disconnect
socket handlers, and the REST handlers for explicit status updates and
agent assignment.  Machine timestamps are modelled as `Nat`; JavaScript
falsy string fields (`undefined` or `""`) are modelled as `Option String`
with `none` and `some ""` both falsy; a missing document is `Option`.
-/

namespace SupportFlow

/-- Roles of `UserRole` in the source (part_004 line 153). -/
inductive UserRole
  | customer
  | agent
  | admin
deriving DecidableEq, Repr

/-- Statuses of `ConversationStatus` in the source (part_004 lines 154-161).
`open` is a Lean keyword, so the first status is named `open_`. -/
inductive ConversationStatus
  | open_
  | assigned
  | in_progress
  | pending_customer
  | resolved
  | closed
deriving DecidableEq, Repr

/-- File reference attached to a message's content (the `file_info` object
built at part_004 lines 812-817). -/
structure FileInfo where
  url : String
  name : String
  mime_type : String
  size : Nat
deriving DecidableEq, Repr

/-- Message content: `{text?, file_info?}`.  A JavaScript `undefined` or
empty text both behave falsy, so `text` is a plain `String` with `""` for
the falsy cases; `file_info` is optional. -/
structure Content where
  text : String
  file_info : Option FileInfo
deriving DecidableEq, Repr

/-- Chat message entry as built by the `send_message` handler
(part_004 lines 453-460). -/
structure Message where
  sender_id : String
  sender_name : String
  sender_role : UserRole
  content : Content
  conversation_id : String
  timestamp : Nat
deriving DecidableEq, Repr

/-- Conversation document (the mongoose `conversationSchema`,
part_004 lines 197-220), restricted to the fields the handlers read or
write.  Timestamps are `Option Nat` when the schema leaves them unset. -/
structure Conversation where
  customer_id : String
  agent_id : Option String
  status : ConversationStatus
  subject : Option String
  chat_history : List Message
  summary : Option String
  assigned_at : Option Nat
  last_message_at : Nat
  resolved_at : Option Nat
  closed_at : Option Nat
deriving DecidableEq, Repr

/-- Per-connection identity snapshot stored in `userInfoBySid`
(part_004 lines 367-373). -/
structure UserInfo where
  user_id : String
  google_id : String
  name : String
  role : UserRole
  sid : String
deriving DecidableEq, Repr

/-- Payload of an `error_message` event: `{conversation_id?, message}`.
The handlers sometimes omit the conversation id, hence the `Option`. -/
structure ErrorPayload where
  conversation_id : Option String
  message : String
deriving DecidableEq, Repr

/-- Outcome of the `send_message` socket handler: silently return
(no `userInfo`), emit an `error_message`, or persist the updated
conversation and broadcast the new message.  The `statusChanged` flag
records whether a `conversation_status_update` broadcast is also emitted
(part_004 lines 481-487). -/
inductive SendResult
  | noop
  | error (payload : ErrorPayload)
  | ok (conv : Conversation) (msg : Message) (statusChanged : Bool)
deriving DecidableEq, Repr

/-- Message payload built by `send_message` (part_004 lines 453-460):
server-side timestamp, sender snapshot from `userInfoBySid`. -/
def mkMessagePayload (u : UserInfo) (c : Content) (cid : String) (now : Nat) :
    Message :=
  { sender_id := u.user_id
    sender_name := u.name
    sender_role := u.role
    content := c
    conversation_id := cid
    timestamp := now }

/-- Mutation of the conversation document performed by `send_message` after
validation (part_004 lines 462-476): push the message, update
`last_message_at`, and if the sender is agent/admin while the status is
`open` or `assigned`, move to `in_progress` (backfilling `assigned_at`
when an agent is set but no assignment time is recorded). -/
def applySendToConversation (conv : Conversation) (u : UserInfo)
    (payload : Message) (now : Nat) : Conversation :=
  let withMsg := { conv with
    chat_history := conv.chat_history ++ [payload]
    last_message_at := now }
  if (u.role = UserRole.agent ∨ u.role = UserRole.admin) ∧
      (conv.status = ConversationStatus.open_ ∨
        conv.status = ConversationStatus.assigned) then
    { withMsg with
      status := ConversationStatus.in_progress
      assigned_at :=
        if withMsg.assigned_at = none ∧ withMsg.agent_id ≠ none then some now
        else withMsg.assigned_at }
  else withMsg

/-- The `send_message` socket handler (part_004 lines 438-488).
`userInfo?` is `userInfoBySid[socket.id]`; `findConv` is
`Conversation.findById`; `conversation_id?` and `content?` are the event
payload fields.  Validation order mirrors the source:
`if (!conversation_id || !content || (!content.text && !content.file_info))`
emits `"Invalid message data."` without a conversation id, then a failed
lookup emits `"Conversation not found."` without a conversation id. -/
def sendMessage (userInfo? : Option UserInfo)
    (findConv : String → Option Conversation)
    (conversation_id? : Option String) (content? : Option Content)
    (now : Nat) : SendResult :=
  match userInfo? with
  | none => SendResult.noop
  | some u =>
    match conversation_id?, content? with
    | none, _ =>
      SendResult.error { conversation_id := none, message := "Invalid message data." }
    | some _, none =>
      SendResult.error { conversation_id := none, message := "Invalid message data." }
    | some cid, some c =>
      if cid = "" ∨ (c.text = "" ∧ c.file_info = none) then
        SendResult.error { conversation_id := none, message := "Invalid message data." }
      else
        match findConv cid with
        | none =>
          SendResult.error { conversation_id := none, message := "Conversation not found." }
        | some conv =>
          let payload := mkMessagePayload u c cid now
          let conv2 := applySendToConversation conv u payload now
          SendResult.ok conv2 payload (decide (conv2.status ≠ conv.status))

/-- Outcome of the `PATCH /:conversation_id/status` REST handler
(part_004 lines 735-780), restricted to its effect on the conversation
document: 404 when the conversation is missing, 403 when a non-agent,
non-admin user requests a status other than `open`, otherwise the updated
document. -/
inductive StatusPatchResult
  | notFound
  | forbidden
  | ok (conv : Conversation)
deriving DecidableEq, Repr

/-- The `PATCH /:conversation_id/status` handler body
(part_004 lines 742-764): role gate, then `conv.status = new_status`
unconditionally, then timestamp bookkeeping — `resolved` sets
`resolved_at`, `closed` sets `closed_at` and backfills `resolved_at` when
absent. -/
def updateStatusHandler (userRole : UserRole) (conv? : Option Conversation)
    (new_status : ConversationStatus) (now : Nat) : StatusPatchResult :=
  match conv? with
  | none => StatusPatchResult.notFound
  | some conv =>
    if ¬(userRole = UserRole.agent ∨ userRole = UserRole.admin) ∧
        ¬(new_status = ConversationStatus.open_) then
      StatusPatchResult.forbidden
    else
      let conv1 := { conv with status := new_status }
      let conv2 :=
        if new_status = ConversationStatus.resolved then
          { conv1 with resolved_at := some now }
        else if new_status = ConversationStatus.closed then
          { conv1 with
            closed_at := some now
            resolved_at :=
              if conv1.resolved_at = none then some now else conv1.resolved_at }
        else conv1
      StatusPatchResult.ok conv2

/-- User document restricted to the fields the assignment handler reads
(part_004 lines 916-923). -/
structure User where
  id : String
  role : UserRole
deriving DecidableEq, Repr

/-- Outcome of the `POST /conversations/:conversation_id/assign` REST
handler (part_004 lines 907-951): 404 when the conversation is missing,
400 when the agent id does not resolve to an agent/admin user, otherwise
the updated document. -/
inductive AssignResult
  | notFound
  | invalidAgent
  | ok (conv : Conversation)
deriving DecidableEq, Repr

/-- The assignment handler body (part_004 lines 912-928): validate the
agent, set `agent_id` and `assigned_at`, and move `open` to `assigned`
while leaving every other status unchanged. -/
def assignHandler (conv? : Option Conversation) (agent? : Option User)
    (now : Nat) : AssignResult :=
  match conv? with
  | none => AssignResult.notFound
  | some conv =>
    match agent? with
    | none => AssignResult.invalidAgent
    | some agent =>
      if ¬(agent.role = UserRole.agent ∨ agent.role = UserRole.admin) then
        AssignResult.invalidAgent
      else
        let conv1 := { conv with
          agent_id := some agent.id
          assigned_at := some now }
        let conv2 :=
          if conv1.status = ConversationStatus.open_ then
            { conv1 with status := ConversationStatus.assigned }
          else conv1
        AssignResult.ok conv2

/-- The in-memory room registry `activeSidsInRooms` (part_004 line 343):
conversation id paired with the set of member socket ids, modelled as an
association list of lists (JavaScript object keys are unique, so theorems
never need duplicate keys). -/
abbrev Rooms := List (String × List String)

/-- Room-map part of the `leave_conversation` handler
(part_004 lines 522-527): if an entry for the conversation exists, delete
the socket id from its set, and drop the entry entirely when the set
became empty. -/
def leaveRoom : Rooms → String → String → Rooms
  | [], _, _ => []
  | (k, sids) :: rest, cid, sid =>
    if k = cid then
      let remaining := sids.filter fun x => x ≠ sid
      if remaining.isEmpty then rest else (k, remaining) :: rest
    else (k, sids) :: leaveRoom rest cid sid

/-- Room-map part of the `disconnect` handler (part_004 lines 547-562):
for every conversation whose member set contains the socket id, delete the
socket id from the set; the entry itself is kept even when the set becomes
empty (the handler has no `delete activeSidsInRooms[convId]`). -/
def disconnectRooms (rooms : Rooms) (sid : String) : Rooms :=
  rooms.map fun e =>
    if sid ∈ e.2 then (e.1, e.2.filter fun x => x ≠ sid) else e

/-- Predicate for the room-map hygiene the spec asks for: `true` when some
conversation id maps to an empty member set. -/
def hasEmptyRoom (rooms : Rooms) : Bool :=
  rooms.any fun e => e.2.isEmpty

/-- Payload of `typing_start_broadcast` / `typing_stop_broadcast`
(part_004 lines 495-499). -/
structure TypingPayload where
  user_id : String
  user_name : String
  conversation_id : String
deriving DecidableEq, Repr

/-- Outcome of the typing handlers: either silently return, or emit the
broadcast `socket.to(room).emit(...)` to the named room (the sender is
excluded from delivery by `socket.to`). -/
inductive TypingResult
  | noop
  | broadcast (room : String) (payload : TypingPayload)
deriving DecidableEq, Repr

/-- The `user_typing_start` handler (part_004 lines 490-500):
`if (!userInfo || !data.conversation_id) return;` then broadcast to
`conversation_<id>`.  No room-membership check, no persistence, no error
event. -/
def userTypingStart (userInfo? : Option UserInfo)
    (conversation_id? : Option String) : TypingResult :=
  match userInfo? with
  | none => TypingResult.noop
  | some u =>
    match conversation_id? with
    | none => TypingResult.noop
    | some cid =>
      if cid = "" then TypingResult.noop
      else
        TypingResult.broadcast ("conversation_" ++ cid)
          { user_id := u.user_id, user_name := u.name, conversation_id := cid }

/-- The `user_typing_stop` handler (part_004 lines 502-512): identical
guard and payload, broadcast on the stop event name. -/
def userTypingStop (userInfo? : Option UserInfo)
    (conversation_id? : Option String) : TypingResult :=
  match userInfo? with
  | none => TypingResult.noop
  | some u =>
    match conversation_id? with
    | none => TypingResult.noop
    | some cid =>
      if cid = "" then TypingResult.noop
      else
        TypingResult.broadcast ("conversation_" ++ cid)
          { user_id := u.user_id, user_name := u.name, conversation_id := cid }

/-- Recipients of `socket.to(room).emit(...)` given the server's room
membership map keyed by room name: every member of the room except the
sending socket; an unknown room delivers to nobody. -/
def socketToRecipients (socketRooms : Rooms) (room : String)
    (senderSid : String) : List String :=
  match socketRooms.find? (fun e => e.1 == room) with
  | none => []
  | some e => e.2.filter fun x => x ≠ senderSid

/-- Core operations on one conversation document, for temporal claims:
a socket `send_message`, an explicit REST status update, and an explicit
REST assignment. -/
inductive CoreOp
  | sendMsg (u : UserInfo) (content : Content) (now : Nat)
  | patchStatus (role : UserRole) (new_status : ConversationStatus) (now : Nat)
  | assign (agent : User) (now : Nat)
deriving DecidableEq, Repr

/-- Effect of one core operation on a conversation stored under id `cid`:
the handler runs against a store containing exactly this conversation, and
a rejected operation leaves the document unchanged. -/
def applyOp (cid : String) (conv : Conversation) : CoreOp → Conversation
  | CoreOp.sendMsg u content now =>
    match sendMessage (some u) (fun _ => some conv) (some cid) (some content)
        now with
    | SendResult.ok conv2 _ _ => conv2
    | _ => conv
  | CoreOp.patchStatus role new_status now =>
    match updateStatusHandler role (some conv) new_status now with
    | StatusPatchResult.ok conv2 => conv2
    | _ => conv
  | CoreOp.assign agent now =>
    match assignHandler (some conv) (some agent) now with
    | AssignResult.ok conv2 => conv2
    | _ => conv

/-- An operation that never requests a status other than `closed` through
the explicit status-update endpoint. -/
def keepsClosedOp : CoreOp → Bool
  | CoreOp.patchStatus _ new_status _ =>
    new_status = ConversationStatus.closed
  | _ => true

/-- Concrete agent identity snapshot used by witnesses. -/
def sampleAgentInfo : UserInfo :=
  { user_id := "u-agent", google_id := "g-agent", name := "Agent A",
    role := UserRole.agent, sid := "s-agent" }

/-- Concrete customer identity snapshot used by witnesses. -/
def sampleCustomerInfo : UserInfo :=
  { user_id := "u-cust", google_id := "g-cust", name := "Customer C",
    role := UserRole.customer, sid := "s-cust" }

/-- Concrete closed conversation used by witnesses and counterexamples. -/
def sampleClosedConv : Conversation :=
  { customer_id := "u-cust", agent_id := some "u-agent",
    status := ConversationStatus.closed, subject := some "help",
    chat_history := [], summary := none, assigned_at := some 1,
    last_message_at := 2, resolved_at := some 3, closed_at := some 4 }

/-- Concrete open conversation used by witnesses. -/
def sampleOpenConv : Conversation :=
  { customer_id := "u-cust", agent_id := none,
    status := ConversationStatus.open_, subject := some "help",
    chat_history := [], summary := none, assigned_at := none,
    last_message_at := 0, resolved_at := none, closed_at := none }

/-- Concrete non-empty message content used by witnesses. -/
def sampleText : Content := { text := "hi", file_info := none }

/-- Concrete identity snapshot of a customer who is neither the
conversation's customer nor an agent, used to witness the absence of an
authorization check. -/
def sampleStrangerInfo : UserInfo :=
  { user_id := "u-other", google_id := "g-other", name := "Other O",
    role := UserRole.customer, sid := "s-other" }

/-- Concrete agent user document used by assignment witnesses. -/
def sampleAgentUser : User := { id := "u-agent", role := UserRole.agent }

/-- Success path of `send_message`: with a resolvable, non-falsy
conversation id and non-empty content, the handler returns the mutated
conversation together with the broadcast message payload. -/
theorem sendMessage_found (u : UserInfo)
    (findConv : String → Option Conversation) (cid : String) (c : Content)
    (now : Nat) (conv : Conversation) (hfind : findConv cid = some conv)
    (hcid : cid ≠ "") (hc : ¬(c.text = "" ∧ c.file_info = none)) :
    sendMessage (some u) findConv (some cid) (some c) now =
      SendResult.ok
        (applySendToConversation conv u (mkMessagePayload u c cid now) now)
        (mkMessagePayload u c cid now)
        (decide
          ((applySendToConversation conv u (mkMessagePayload u c cid now)
              now).status ≠ conv.status)) := by
  simp only [sendMessage]
  rw [if_neg (not_or.mpr ⟨hcid, hc⟩), hfind]

/-- The mutated conversation's history is the old history with the new
message appended, in both branches of the status-advance guard. -/
theorem applySend_chat_history (conv : Conversation) (u : UserInfo)
    (payload : Message) (now : Nat) :
    (applySendToConversation conv u payload now).chat_history =
      conv.chat_history ++ [payload] := by
  simp only [applySendToConversation]
  split <;> rfl

/-- Status computed by the `send_message` mutation: `in_progress` exactly
when an agent/admin sends into `open` or `assigned`, otherwise unchanged. -/
theorem applySend_status (conv : Conversation) (u : UserInfo)
    (payload : Message) (now : Nat) :
    (applySendToConversation conv u payload now).status =
      if (u.role = UserRole.agent ∨ u.role = UserRole.admin) ∧
          (conv.status = ConversationStatus.open_ ∨
            conv.status = ConversationStatus.assigned)
      then ConversationStatus.in_progress
      else conv.status := by
  simp only [applySendToConversation]
  split_ifs <;> rfl

/-- Inversion for a successful `send_message`: the id and content were
present, the conversation resolved, and the returned document is the
`applySendToConversation` mutation of it. -/
theorem sendMessage_ok_inv (u : UserInfo)
    (findConv : String → Option Conversation) (cid? : Option String)
    (c? : Option Content) (now : Nat) (conv2 : Conversation) (msg : Message)
    (b : Bool)
    (h : sendMessage (some u) findConv cid? c? now =
      SendResult.ok conv2 msg b) :
    ∃ cid c conv, cid? = some cid ∧ c? = some c ∧ findConv cid = some conv ∧
      conv2 = applySendToConversation conv u (mkMessagePayload u c cid now)
        now := by
  cases cid? with
  | none => simp [sendMessage] at h
  | some cid =>
    cases c? with
    | none => simp [sendMessage] at h
    | some c =>
      simp only [sendMessage] at h
      split at h
      · exact absurd h (by simp)
      · cases hfc : findConv cid with
        | none => rw [hfc] at h; exact absurd h (by simp)
        | some conv =>
          rw [hfc] at h
          simp only [SendResult.ok.injEq] at h
          exact ⟨cid, c, conv, rfl, rfl, hfc, h.1.symm⟩

/-- Every `error_message` emitted by `send_message` carries no
conversation id. -/
theorem sendMessage_error_unscoped (userInfo? : Option UserInfo)
    (findConv : String → Option Conversation) (cid? : Option String)
    (c? : Option Content) (now : Nat) (e : ErrorPayload)
    (h : sendMessage userInfo? findConv cid? c? now = SendResult.error e) :
    e.conversation_id = none := by
  cases userInfo? with
  | none => simp [sendMessage] at h
  | some u =>
    cases cid? with
    | none =>
      simp only [sendMessage] at h
      cases h
      rfl
    | some cid =>
      cases c? with
      | none =>
        simp only [sendMessage] at h
        cases h
        rfl
      | some c =>
        simp only [sendMessage] at h
        split at h
        · cases h; rfl
        · cases hfc : findConv cid with
          | none => rw [hfc] at h; cases h; rfl
          | some conv => rw [hfc] at h; exact absurd h (by simp)

/-- A `send_message` mutation never moves a closed conversation's status:
the advance guard requires `open` or `assigned`. -/
theorem applySend_status_closed (conv : Conversation) (u : UserInfo)
    (payload : Message) (now : Nat)
    (h : conv.status = ConversationStatus.closed) :
    (applySendToConversation conv u payload now).status =
      ConversationStatus.closed := by
  rw [applySend_status, h]
  simp

/-- One core operation preserves `closed` provided any explicit status
update in it requests `closed`. -/
theorem applyOp_closed (cid : String) (conv : Conversation) (op : CoreOp)
    (h : conv.status = ConversationStatus.closed)
    (hop : keepsClosedOp op = true) :
    (applyOp cid conv op).status = ConversationStatus.closed := by
  cases op with
  | sendMsg u content now =>
    simp only [applyOp]
    cases hres : sendMessage (some u) (fun _ => some conv) (some cid)
        (some content) now with
    | noop => exact h
    | error e => exact h
    | ok conv2 msg b =>
      obtain ⟨cid', c', conv', _, _, hfc, hconv2⟩ :=
        sendMessage_ok_inv u _ _ _ now conv2 msg b hres
      obtain rfl : conv = conv' := by
        simpa using hfc
      rw [hconv2]
      exact applySend_status_closed conv u _ now h
  | patchStatus role new_status now =>
    obtain rfl : new_status = ConversationStatus.closed := by
      simpa [keepsClosedOp] using hop
    by_cases hrole : role = UserRole.agent ∨ role = UserRole.admin
    · simp only [applyOp, updateStatusHandler]
      rw [if_neg (fun hcontra => hcontra.1 hrole)]
      simp
    · simp only [applyOp, updateStatusHandler]
      rw [if_pos ⟨hrole, by simp⟩]
      exact h
  | assign agent now =>
    by_cases hrole : agent.role = UserRole.agent ∨ agent.role = UserRole.admin
    · simp only [applyOp, assignHandler]
      rw [if_neg (not_not_intro hrole), if_neg (by rw [h]; simp)]
      exact h
    · simp only [applyOp, assignHandler]
      rw [if_pos hrole]
      exact h

/-- A closed conversation stays closed across any sequence of core
operations whose explicit status updates only request `closed`. -/
theorem foldl_applyOp_closed (cid : String) (conv : Conversation)
    (ops : List CoreOp) (h : conv.status = ConversationStatus.closed)
    (hops : ∀ op ∈ ops, keepsClosedOp op = true) :
    (ops.foldl (applyOp cid) conv).status = ConversationStatus.closed := by
  induction ops generalizing conv with
  | nil => exact h
  | cons op rest ih =>
    simp only [List.foldl_cons]
    exact ih (applyOp cid conv op)
      (applyOp_closed cid conv op h (hops op (List.mem_cons_self op rest)))
      (fun o ho => hops o (List.mem_cons_of_mem op ho))

/-- The mutated conversation carries the server-side send time. -/
theorem applySend_last_message_at (conv : Conversation) (u : UserInfo)
    (payload : Message) (now : Nat) :
    (applySendToConversation conv u payload now).last_message_at = now := by
  simp only [applySendToConversation]
  split <;> rfl

/-- Explicit leave keeps the room map free of empty member sets: the one
entry it may empty is dropped, every other entry is untouched. -/
theorem leaveRoom_no_empty (rooms : Rooms) (cid sid : String)
    (h : hasEmptyRoom rooms = false) :
    hasEmptyRoom (leaveRoom rooms cid sid) = false := by
  induction rooms with
  | nil => rfl
  | cons e rest ih =>
    obtain ⟨k, sids⟩ := e
    simp only [hasEmptyRoom, List.any_cons, Bool.or_eq_false_iff] at h
    obtain ⟨h1, h2⟩ := h
    simp only [leaveRoom]
    split
    · split
      · exact h2
      · rename_i hne
        simp only [hasEmptyRoom, List.any_cons, Bool.or_eq_false_iff]
        exact ⟨Bool.not_eq_true _ ▸ hne, h2⟩
    · simp only [hasEmptyRoom, List.any_cons, Bool.or_eq_false_iff]
      exact ⟨h1, ih h2⟩

/-- Disconnect removes the socket id from every room's member set. -/
theorem disconnectRooms_not_mem (rooms : Rooms) (sid : String) :
    ∀ e ∈ disconnectRooms rooms sid, sid ∉ e.2 := by
  intro e he
  simp only [disconnectRooms, List.mem_map] at he
  obtain ⟨a, ha, rfl⟩ := he
  split
  · simp [List.mem_filter]
  · rename_i hnot
    exact hnot

/-- Disconnect never removes a room entry, only members. -/
theorem disconnectRooms_length (rooms : Rooms) (sid : String) :
    (disconnectRooms rooms sid).length = rooms.length :=
  List.length_map rooms _

/-- Claim C1, counterexample: the claim that a closed conversation never
transitions out of `closed` under any core operation, including explicit
status updates, is false — the status PATCH handler assigns the requested
status unconditionally, so an admin update to `open` reopens a closed
conversation. -/
theorem C1_counterexample :
    sampleClosedConv.status = ConversationStatus.closed ∧
    (applyOp "c1" sampleClosedConv
        (CoreOp.patchStatus UserRole.admin ConversationStatus.open_ 5)).status =
      ConversationStatus.open_ := by
  constructor <;> decide

/-- Claim C1, amended: for every conversation whose status is `closed`,
every subsequent sequence of core operations made of message sends,
assignments, and explicit status updates that request `closed` leaves the
status `closed`; only an explicit status update requesting a different
status can transition the conversation out of `closed`. -/
theorem C1_closed_preserved_without_reopen (cid : String)
    (conv : Conversation) (ops : List CoreOp)
    (h : conv.status = ConversationStatus.closed)
    (hops : ∀ op ∈ ops, keepsClosedOp op = true) :
    (ops.foldl (applyOp cid) conv).status = ConversationStatus.closed :=
  foldl_applyOp_closed cid conv ops h hops

/-- Claim C1, witness: a concrete closed conversation stays closed across
a message send, a reassignment, and a re-close. -/
theorem C1_witness :
    sampleClosedConv.status = ConversationStatus.closed ∧
    (∀ op ∈ [CoreOp.sendMsg sampleAgentInfo sampleText 5,
        CoreOp.assign sampleAgentUser 6,
        CoreOp.patchStatus UserRole.admin ConversationStatus.closed 7],
      keepsClosedOp op = true) ∧
    (([CoreOp.sendMsg sampleAgentInfo sampleText 5,
        CoreOp.assign sampleAgentUser 6,
        CoreOp.patchStatus UserRole.admin ConversationStatus.closed 7].foldl
        (applyOp "c1") sampleClosedConv).status =
      ConversationStatus.closed) :=
  ⟨by decide, by decide,
    C1_closed_preserved_without_reopen "c1" sampleClosedConv _ (by decide)
      (by decide)⟩

/-- Claim C2: for every authenticated sender — any role, any relation to
the conversation, joined or not (the handler consults no room state) — a
`send_message` with a resolvable conversation id and non-empty content
returns success and appends the message to the conversation's history;
there is no authorization error branch. -/
theorem C2_send_message_appends_without_authorization (u : UserInfo)
    (findConv : String → Option Conversation) (cid : String)
    (conv : Conversation) (c : Content) (now : Nat)
    (hfind : findConv cid = some conv) (hcid : cid ≠ "")
    (hc : ¬(c.text = "" ∧ c.file_info = none)) :
    ∃ conv2 msg b,
      sendMessage (some u) findConv (some cid) (some c) now =
        SendResult.ok conv2 msg b ∧
      conv2.chat_history = conv.chat_history ++ [msg] := by
  exact ⟨_, _, _, sendMessage_found u findConv cid c now conv hfind hcid hc,
    applySend_chat_history conv u _ now⟩

/-- Claim C2, witness: a customer who is not the conversation's customer
and has not joined any room still gets the message appended. -/
theorem C2_witness :
    (fun _ => some sampleOpenConv) "c1" = some sampleOpenConv ∧
    ("c1" : String) ≠ "" ∧
    ¬(sampleText.text = "" ∧ sampleText.file_info = none) ∧
    (∃ conv2 msg b,
      sendMessage (some sampleStrangerInfo) (fun _ => some sampleOpenConv)
          (some "c1") (some sampleText) 5 = SendResult.ok conv2 msg b ∧
      conv2.chat_history = sampleOpenConv.chat_history ++ [msg]) :=
  ⟨rfl, by decide, by decide,
    C2_send_message_appends_without_authorization sampleStrangerInfo _ "c1"
      sampleOpenConv sampleText 5 rfl (by decide) (by decide)⟩

/-- Claim C3, counterexample: a `send_message` targeting a closed
conversation is not rejected — the handler never inspects the status, so
the message is appended (here, by the conversation's own customer, turning
the empty history into a one-element history) and no error is emitted. -/
theorem C3_counterexample :
    sampleClosedConv.status = ConversationStatus.closed ∧
    sampleClosedConv.chat_history = [] ∧
    sendMessage (some sampleCustomerInfo) (fun _ => some sampleClosedConv)
        (some "c1") (some sampleText) 5 =
      SendResult.ok
        { sampleClosedConv with
          chat_history := [mkMessagePayload sampleCustomerInfo sampleText "c1" 5]
          last_message_at := 5 }
        (mkMessagePayload sampleCustomerInfo sampleText "c1" 5) false := by
  refine ⟨by decide, by decide, by decide⟩

/-- Claim C3, amended: for every conversation in status `closed`, a
`send_message` with non-empty content is accepted: the message is appended
and `last_message_at` updated, while the status stays `closed` and no
status-update broadcast is emitted.  Only `join_conversation` rejects a
closed conversation. -/
theorem C3_closed_send_message_accepted (u : UserInfo)
    (findConv : String → Option Conversation) (cid : String)
    (conv : Conversation) (c : Content) (now : Nat)
    (hfind : findConv cid = some conv)
    (hclosed : conv.status = ConversationStatus.closed) (hcid : cid ≠ "")
    (hc : ¬(c.text = "" ∧ c.file_info = none)) :
    ∃ conv2 msg,
      sendMessage (some u) findConv (some cid) (some c) now =
        SendResult.ok conv2 msg false ∧
      conv2.status = ConversationStatus.closed ∧
      conv2.chat_history = conv.chat_history ++ [msg] ∧
      conv2.last_message_at = now := by
  have hstat :=
    applySend_status_closed conv u (mkMessagePayload u c cid now) now hclosed
  refine ⟨_, _, ?_, hstat, applySend_chat_history conv u _ now,
    applySend_last_message_at conv u _ now⟩
  rw [sendMessage_found u findConv cid c now conv hfind hcid hc]
  congr 1
  rw [hstat, hclosed]
  simp

/-- Claim C3, witness: an agent sending into a concrete closed
conversation gets the message appended with status still `closed`. -/
theorem C3_witness :
    (fun _ => some sampleClosedConv) "c1" = some sampleClosedConv ∧
    sampleClosedConv.status = ConversationStatus.closed ∧
    ("c1" : String) ≠ "" ∧
    ¬(sampleText.text = "" ∧ sampleText.file_info = none) ∧
    (∃ conv2 msg,
      sendMessage (some sampleAgentInfo) (fun _ => some sampleClosedConv)
          (some "c1") (some sampleText) 5 = SendResult.ok conv2 msg false ∧
      conv2.status = ConversationStatus.closed ∧
      conv2.chat_history = sampleClosedConv.chat_history ++ [msg] ∧
      conv2.last_message_at = 5) :=
  ⟨rfl, by decide, by decide, by decide,
    C3_closed_send_message_accepted sampleAgentInfo _ "c1" sampleClosedConv
      sampleText 5 rfl (by decide) (by decide) (by decide)⟩

/-- Claim C4: a `send_message` whose content has empty text and no file
reference is rejected with the `"Invalid message data."` error, for every
sender, conversation id, and store; no conversation document is returned,
so no state is mutated by the event. -/
theorem C4_empty_content_rejected (u : UserInfo)
    (findConv : String → Option Conversation) (cid? : Option String)
    (c : Content) (now : Nat) (htext : c.text = "")
    (hfile : c.file_info = none) :
    sendMessage (some u) findConv cid? (some c) now =
      SendResult.error
        { conversation_id := none, message := "Invalid message data." } := by
  cases cid? with
  | none => rfl
  | some cid =>
    simp only [sendMessage]
    rw [if_pos (Or.inr ⟨htext, hfile⟩)]

/-- Claim C4, witness: an empty content payload against an existing open
conversation is rejected. -/
theorem C4_witness :
    (Content.text { text := "", file_info := none } = "") ∧
    (Content.file_info { text := "", file_info := none } = none) ∧
    sendMessage (some sampleCustomerInfo) (fun _ => some sampleOpenConv)
        (some "c1") (some { text := "", file_info := none }) 5 =
      SendResult.error
        { conversation_id := none, message := "Invalid message data." } :=
  ⟨rfl, rfl,
    C4_empty_content_rejected sampleCustomerInfo _ (some "c1")
      { text := "", file_info := none } 5 rfl rfl⟩

/-- Claim C5: on a successful `send_message`, an agent or admin sender
moves a conversation whose status is `open` or `assigned` to
`in_progress`, while a customer sender leaves the status unchanged in
every status. -/
theorem C5_send_message_status_transition (u : UserInfo)
    (findConv : String → Option Conversation) (cid : String)
    (conv : Conversation) (c : Content) (now : Nat)
    (hfind : findConv cid = some conv) (hcid : cid ≠ "")
    (hc : ¬(c.text = "" ∧ c.file_info = none)) :
    ∃ conv2 msg b,
      sendMessage (some u) findConv (some cid) (some c) now =
        SendResult.ok conv2 msg b ∧
      ((u.role = UserRole.agent ∨ u.role = UserRole.admin) →
        (conv.status = ConversationStatus.open_ ∨
          conv.status = ConversationStatus.assigned) →
        conv2.status = ConversationStatus.in_progress) ∧
      (u.role = UserRole.customer → conv2.status = conv.status) := by
  refine ⟨_, _, _, sendMessage_found u findConv cid c now conv hfind hcid hc,
    ?_, ?_⟩
  · intro hrole hstatus
    rw [applySend_status, if_pos ⟨hrole, hstatus⟩]
  · intro hcust
    rw [applySend_status, if_neg (by simp [hcust])]

/-- Claim C5, witness: an agent's message into a concrete `open`
conversation; the first implication yields `in_progress`. -/
theorem C5_witness :
    (fun _ => some sampleOpenConv) "c1" = some sampleOpenConv ∧
    ("c1" : String) ≠ "" ∧
    ¬(sampleText.text = "" ∧ sampleText.file_info = none) ∧
    (∃ conv2 msg b,
      sendMessage (some sampleAgentInfo) (fun _ => some sampleOpenConv)
          (some "c1") (some sampleText) 5 = SendResult.ok conv2 msg b ∧
      ((sampleAgentInfo.role = UserRole.agent ∨
          sampleAgentInfo.role = UserRole.admin) →
        (sampleOpenConv.status = ConversationStatus.open_ ∨
          sampleOpenConv.status = ConversationStatus.assigned) →
        conv2.status = ConversationStatus.in_progress) ∧
      (sampleAgentInfo.role = UserRole.customer →
        conv2.status = sampleOpenConv.status)) :=
  ⟨rfl, by decide, by decide,
    C5_send_message_status_transition sampleAgentInfo _ "c1" sampleOpenConv
      sampleText 5 rfl (by decide) (by decide)⟩

/-- Claim C6, counterexample: the claim that every removal — including the
per-room removals on full disconnect — drops a room entry that became
empty is false: disconnecting the sole member of a room leaves the
conversation id mapped to an empty set. -/
theorem C6_counterexample :
    disconnectRooms [("c1", ["s1"])] "s1" = [("c1", [])] ∧
    hasEmptyRoom (disconnectRooms [("c1", ["s1"])] "s1") = true := by
  constructor <;> decide

/-- Claim C6, amended: after an explicit `leave_conversation` the room map
stays free of empty member sets (an emptied entry is dropped), but the
per-room removals on full disconnect only delete the socket id from each
member set: every entry is retained, so a room emptied by a disconnect
stays in the map as an empty set. -/
theorem C6_leave_drops_empty_disconnect_keeps (rooms : Rooms)
    (cid sid : String) (h : hasEmptyRoom rooms = false) :
    hasEmptyRoom (leaveRoom rooms cid sid) = false ∧
    (disconnectRooms rooms sid).length = rooms.length ∧
    ∀ e ∈ disconnectRooms rooms sid, sid ∉ e.2 :=
  ⟨leaveRoom_no_empty rooms cid sid h, disconnectRooms_length rooms sid,
    disconnectRooms_not_mem rooms sid⟩

/-- Claim C6, witness: a two-room map where the leaving socket empties one
room. -/
theorem C6_witness :
    hasEmptyRoom [("c1", ["s1"]), ("c2", ["s1", "s2"])] = false ∧
    (hasEmptyRoom
        (leaveRoom [("c1", ["s1"]), ("c2", ["s1", "s2"])] "c1" "s1") = false ∧
      (disconnectRooms [("c1", ["s1"]), ("c2", ["s1", "s2"])] "s1").length =
        ([("c1", ["s1"]), ("c2", ["s1", "s2"])] : Rooms).length ∧
      ∀ e ∈ disconnectRooms [("c1", ["s1"]), ("c2", ["s1", "s2"])] "s1",
        "s1" ∉ e.2) :=
  ⟨by decide,
    C6_leave_drops_empty_disconnect_keeps
      [("c1", ["s1"]), ("c2", ["s1", "s2"])] "c1" "s1" (by decide)⟩

/-- Claim C7, counterexample: the claim that every rejected `send_message`
carries the conversation id it concerns is false — here a send with empty
content into conversation `"c1"` is rejected with an `error_message` whose
conversation id field is absent. -/
theorem C7_counterexample :
    sendMessage (some sampleCustomerInfo) (fun _ => some sampleOpenConv)
        (some "c1") (some { text := "", file_info := none }) 5 =
      SendResult.error
        { conversation_id := none, message := "Invalid message data." } := by
  decide

/-- Claim C7, amended: every `error_message` emitted by the `send_message`
handler — missing id, unknown conversation, or empty content — carries no
conversation id at all; unlike the `join_conversation` errors, none of
these rejections is scoped. -/
theorem C7_send_message_errors_unscoped (userInfo? : Option UserInfo)
    (findConv : String → Option Conversation) (cid? : Option String)
    (c? : Option Content) (now : Nat) (e : ErrorPayload)
    (h : sendMessage userInfo? findConv cid? c? now = SendResult.error e) :
    e.conversation_id = none :=
  sendMessage_error_unscoped userInfo? findConv cid? c? now e h

/-- Claim C7, witness: the unknown-conversation rejection carries no
conversation id. -/
theorem C7_witness :
    sendMessage (some sampleCustomerInfo) (fun _ => none) (some "c1")
        (some sampleText) 5 =
      SendResult.error
        { conversation_id := none, message := "Conversation not found." } ∧
    ErrorPayload.conversation_id
        { conversation_id := none, message := "Conversation not found." } =
      none :=
  ⟨by decide,
    C7_send_message_errors_unscoped (some sampleCustomerInfo) (fun _ => none)
      (some "c1") (some sampleText) 5 _ (by decide)⟩

/-- Claim C8: assigning an agent/admin user to a conversation always
stores the new agent reference and the assignment time; a conversation in
status `open` moves to `assigned`, every other status is unchanged. -/
theorem C8_assign_updates_agent_and_status (conv : Conversation)
    (agent : User) (now : Nat)
    (hrole : agent.role = UserRole.agent ∨ agent.role = UserRole.admin) :
    ∃ conv2,
      assignHandler (some conv) (some agent) now = AssignResult.ok conv2 ∧
      conv2.agent_id = some agent.id ∧ conv2.assigned_at = some now ∧
      (conv.status = ConversationStatus.open_ →
        conv2.status = ConversationStatus.assigned) ∧
      (conv.status ≠ ConversationStatus.open_ →
        conv2.status = conv.status) := by
  simp only [assignHandler]
  rw [if_neg (not_not_intro hrole)]
  by_cases hopen : conv.status = ConversationStatus.open_
  · rw [if_pos hopen]
    exact ⟨_, rfl, rfl, rfl, fun _ => rfl, fun hne => absurd hopen hne⟩
  · rw [if_neg hopen]
    exact ⟨_, rfl, rfl, rfl, fun hop => absurd hop hopen, fun _ => rfl⟩

/-- Claim C8, witness: assigning a concrete agent to a concrete open
conversation. -/
theorem C8_witness :
    (sampleAgentUser.role = UserRole.agent ∨
      sampleAgentUser.role = UserRole.admin) ∧
    (∃ conv2,
      assignHandler (some sampleOpenConv) (some sampleAgentUser) 5 =
        AssignResult.ok conv2 ∧
      conv2.agent_id = some sampleAgentUser.id ∧
      conv2.assigned_at = some 5 ∧
      (sampleOpenConv.status = ConversationStatus.open_ →
        conv2.status = ConversationStatus.assigned) ∧
      (sampleOpenConv.status ≠ ConversationStatus.open_ →
        conv2.status = sampleOpenConv.status)) :=
  ⟨by decide,
    C8_assign_updates_agent_and_status sampleOpenConv sampleAgentUser 5
      (by decide)⟩

/-- Claim C9: for an authorized (agent/admin) explicit status update,
setting `resolved` records the resolved time, and setting `closed` records
the closed time and backfills the resolved time when absent; provided any
pre-existing resolved time is not in the future, the conversation after
closing satisfies `resolved_at ≤ closed_at`. -/
theorem C9_status_timestamps (conv : Conversation) (role : UserRole)
    (now : Nat) (hrole : role = UserRole.agent ∨ role = UserRole.admin)
    (hmono : ∀ t, conv.resolved_at = some t → t ≤ now) :
    (∃ c1,
      updateStatusHandler role (some conv) ConversationStatus.resolved now =
        StatusPatchResult.ok c1 ∧ c1.resolved_at = some now) ∧
    (∃ c2,
      updateStatusHandler role (some conv) ConversationStatus.closed now =
        StatusPatchResult.ok c2 ∧ c2.closed_at = some now ∧
      ∃ r, c2.resolved_at = some r ∧ r ≤ now) := by
  constructor
  · simp only [updateStatusHandler]
    rw [if_neg (fun hcontra => hcontra.1 hrole), if_pos trivial]
    exact ⟨_, rfl, rfl⟩
  · simp only [updateStatusHandler]
    rw [if_neg (fun hcontra => hcontra.1 hrole), if_pos trivial]
    cases hres : conv.resolved_at with
    | none =>
      refine ⟨_, rfl, rfl, now, ?_, le_refl now⟩
      simp [hres]
    | some t =>
      refine ⟨_, rfl, rfl, t, ?_, hmono t hres⟩
      simp [hres]

/-- Claim C9, witness: an admin resolving and closing a concrete
conversation with no prior resolved time. -/
theorem C9_witness :
    (UserRole.admin = UserRole.agent ∨ UserRole.admin = UserRole.admin) ∧
    (∀ t, sampleOpenConv.resolved_at = some t → t ≤ 5) ∧
    ((∃ c1,
      updateStatusHandler UserRole.admin (some sampleOpenConv)
          ConversationStatus.resolved 5 =
        StatusPatchResult.ok c1 ∧ c1.resolved_at = some 5) ∧
    (∃ c2,
      updateStatusHandler UserRole.admin (some sampleOpenConv)
          ConversationStatus.closed 5 =
        StatusPatchResult.ok c2 ∧ c2.closed_at = some 5 ∧
      ∃ r, c2.resolved_at = some r ∧ r ≤ 5)) :=
  ⟨by decide, by intro t ht; simp [sampleOpenConv] at ht,
    C9_status_timestamps sampleOpenConv UserRole.admin 5 (by decide)
      (by intro t ht; simp [sampleOpenConv] at ht)⟩

/-- Claim C10, counterexample: the claim that a typing event from a
connection not joined to the room is ignored is false — the handler never
checks membership, so a typing start from socket `"s-cust"`, which is not
in the room, still broadcasts to the room's one member. -/
theorem C10_counterexample :
    userTypingStart (some sampleCustomerInfo) (some "c1") =
      TypingResult.broadcast "conversation_c1"
        { user_id := "u-cust", user_name := "Customer C",
          conversation_id := "c1" } ∧
    sampleCustomerInfo.sid ∉ (["s-agent"] : List String) ∧
    socketToRecipients [("conversation_c1", ["s-agent"])] "conversation_c1"
        sampleCustomerInfo.sid = ["s-agent"] := by
  refine ⟨by decide, by decide, by decide⟩

/-- Claim C10, amended: `user_typing_start` and `user_typing_stop` are
dropped only when the connection has no identity snapshot or the
conversation id is missing; otherwise the broadcast is emitted to the
room's members (minus the sender) regardless of whether the sender has
joined the room, and no error is ever returned. -/
theorem C10_typing_broadcast_unconditional (u : UserInfo) (cid : String)
    (hcid : cid ≠ "") :
    userTypingStart (some u) (some cid) =
      TypingResult.broadcast ("conversation_" ++ cid)
        { user_id := u.user_id, user_name := u.name,
          conversation_id := cid } ∧
    userTypingStop (some u) (some cid) =
      TypingResult.broadcast ("conversation_" ++ cid)
        { user_id := u.user_id, user_name := u.name,
          conversation_id := cid } := by
  constructor
  · simp only [userTypingStart]
    rw [if_neg hcid]
  · simp only [userTypingStop]
    rw [if_neg hcid]

/-- Claim C10, witness: a concrete non-joined sender still produces the
broadcast result for both typing events. -/
theorem C10_witness :
    ("c1" : String) ≠ "" ∧
    (userTypingStart (some sampleStrangerInfo) (some "c1") =
      TypingResult.broadcast ("conversation_" ++ "c1")
        { user_id := sampleStrangerInfo.user_id,
          user_name := sampleStrangerInfo.name, conversation_id := "c1" } ∧
    userTypingStop (some sampleStrangerInfo) (some "c1") =
      TypingResult.broadcast ("conversation_" ++ "c1")
        { user_id := sampleStrangerInfo.user_id,
          user_name := sampleStrangerInfo.name, conversation_id := "c1" }) :=
  ⟨by decide,
    C10_typing_broadcast_unconditional sampleStrangerInfo "c1" (by decide)⟩

end SupportFlow
